import Mathlib

/-!
Shallow embedding of the aioeXVHP HTTP client wrappers (src/aioexvhp/client.py).

Each client method is modelled as a pure function from its explicit inputs and
from the responses the server would return at each step of the method, to the
ordered list of requests the method issues together with its outcome: either a
returned response or a raised Python exception. Issuing no request and raising
before the first network call therefore appears as an empty request list.
-/

set_option autoImplicit false

/-- JSON values as decoded by the client from a response body. -/
inductive JsonVal where
  | null : JsonVal
  | bool : Bool → JsonVal
  | num : Int → JsonVal
  | str : String → JsonVal
  | obj : List (String × JsonVal) → JsonVal

/-- Python exceptions that the embedded methods can raise. -/
inductive PyErr where
  | keyError : String → PyErr
  | valueError : String → PyErr
  | typeError : PyErr
  | indexError : PyErr

/-- Whether a decoded JSON value is the JSON null (Python None). -/
def JsonVal.isNull : JsonVal → Bool
  | .null => true
  | _ => false

/-- Key lookup in a decoded JSON object, as a Python dict lookup. -/
def jLookup : List (String × JsonVal) → String → Option JsonVal
  | [], _ => none
  | (k, v) :: rest, key => if k = key then some v else jLookup rest key

/-- Models the Python condition `"error" not in d or d["error"] is None`
used by the clip chains on a decoded response body. -/
def noError (j : List (String × JsonVal)) : Bool :=
  match jLookup j "error" with
  | none => true
  | some v => v.isNull

/-- Models Python subscripting `d[k]` on a decoded JSON value: KeyError when
the key is absent from an object, TypeError when the value is not an object. -/
def jIndex : JsonVal → String → Except PyErr JsonVal
  | .obj fields, k =>
      match jLookup fields k with
      | some v => .ok v
      | none => .error (.keyError k)
  | _, _ => .error .typeError

/-- Models Python str() conversion of a decoded JSON value as applied by
f-string interpolation in URL construction. The container case is abstracted
to a fixed token, since no claim depends on interpolating a container. -/
def pyStr : JsonVal → String
  | .null => "None"
  | .bool true => "True"
  | .bool false => "False"
  | .num n => toString n
  | .str s => s
  | .obj _ => "dict"

/-- Models Python `s.endswith(suf)` over the character lists of the strings. -/
def endsWithStr (s suf : String) : Bool :=
  suf.toList.isSuffixOf s.toList

/-- Splitting a character list at every occurrence of a separator. -/
def splitOnChar (c : Char) : List Char → List (List Char)
  | [] => [[]]
  | x :: xs =>
      let r := splitOnChar c xs
      if x = c then [] :: r
      else
        match r with
        | [] => [[x]]
        | y :: ys => (x :: y) :: ys

/-- Index of the last occurrence of a character, as Python str.rfind, with
none for the Python sentinel -1. -/
def lastIndexOf (c : Char) : List Char → Option Nat
  | [] => none
  | x :: xs =>
      match lastIndexOf c xs with
      | some i => some (i + 1)
      | none => if x = c then some 0 else none

/-- Models pathlib PurePosixPath name: the last component of the path after
dropping empty and "." components. -/
def pathNameOf (p : String) : List Char :=
  ((splitOnChar '/' p.toList).filter
    (fun part => part != ([] : List Char) && part != ['.'])).getLastD []

/-- Models pathlib Path(p).stem: the final path component with its last
suffix removed, where a dot that leads the component or ends it does not
count as a suffix separator. -/
def pathStem (p : String) : String :=
  let nm := pathNameOf p
  match lastIndexOf '.' nm with
  | some i => if 0 < i ∧ i < nm.length - 1 then String.mk (nm.take i) else String.mk nm
  | none => String.mk nm

/-- An HTML tag as BeautifulSoup exposes it: a tag name and its attributes. -/
structure Tag where
  name : String
  attrs : List (String × String)

/-- An HTTP response as the client observes it: its success flag, the decoded
JSON body, the text body, and the parsed tag soup of the text body. -/
structure Response where
  ok : Bool
  json : List (String × JsonVal)
  text : String
  html : List Tag

/-- A part of a multipart form: a file part (field name, content type,
filename) or a plain value part (field name, value). -/
inductive FormField where
  | file : String → Option String → String → FormField
  | value : String → String → FormField

/-- A request body: empty, a JSON object, or multipart form data. -/
inductive Body where
  | empty : Body
  | jsonObj : List (String × JsonVal) → Body
  | formData : List FormField → Body

/-- An outgoing request: HTTP verb with URL, query parameters and body, or
the direct-to-object-storage transfer performed through the storage SDK
(access key id, secret access key, session token, bucket, object key). -/
inductive Request where
  | get : String → List (String × String) → Request
  | post : String → List (String × String) → Body → Request
  | put : String → List (String × String) → Body → Request
  | s3upload : JsonVal → JsonVal → JsonVal → String → String → Request

/-- Attribute lookup on a parsed tag, as BeautifulSoup subscripting. -/
def attrLookup : List (String × String) → String → Option String
  | [], _ => none
  | (k, v) :: rest, key => if k = key then some v else attrLookup rest key

/-- Models Python mimetypes.guess_type restricted to the one extension the
embedded call sites can reach; other filenames yield no content type. -/
def guess_type (filename : String) : Option String :=
  if endsWithStr filename ".mp4" then some "video/mp4" else none

/-- JSON serialization of an optional string, Python None becoming null. -/
def jsonOfOptStr : Option String → JsonVal
  | some s => .str s
  | none => .null

/-- Models the expression `"" if mirror_title is None else mirror_title`. -/
def titleOrEmpty : Option String → String
  | some t => t
  | none => ""

def Imgur.api_url : String := "https://api.imgur.com"

def Imgur.base_url : String := "https://imgur.com"

def Imgur.client_id : String := "546c25a59c58ad7"

/-- Embedding of Imgur.upload_media: rejects filenames that do not end in
".mp4" before any request, otherwise posts the multipart form and returns
the server's response. -/
def Imgur.upload_media (media_filename : String) (uploadRes : Response) :
    List Request × Except PyErr Response :=
  if !endsWithStr media_filename ".mp4" then
    ([], .error (.valueError "Unsupported media type!"))
  else
    let media_key := if endsWithStr media_filename ".mp4" then "video" else "image"
    ([Request.post (Imgur.api_url ++ "/3/image") [("client_id", Imgur.client_id)]
        (Body.formData
          [FormField.file media_key (guess_type media_filename) media_filename,
           FormField.value "type" "file",
           FormField.value "name" media_filename])],
     .ok uploadRes)

/-- C3: for every filename not ending in ".mp4", Imgur.upload_media raises
ValueError "Unsupported media type!" and issues no HTTP request at all. -/
theorem imgur_upload_rejects_non_video (media_filename : String) (uploadRes : Response)
    (h : endsWithStr media_filename ".mp4" = false) :
    Imgur.upload_media media_filename uploadRes
      = ([], .error (.valueError "Unsupported media type!")) := by
  simp [Imgur.upload_media, h]

theorem imgur_upload_rejects_non_video_witness :
    Imgur.upload_media "file.png" ⟨true, [], "", []⟩
      = ([], .error (.valueError "Unsupported media type!")) :=
  imgur_upload_rejects_non_video "file.png" ⟨true, [], "", []⟩ (by decide)

/-- C10: whenever Imgur.upload_media does not raise, the multipart field that
carries the media content is named "video": the "image" branch of the field
key selection is unreachable, since any filename that survives the extension
check ends in ".mp4". -/
theorem imgur_media_field_named_video (media_filename : String) (uploadRes : Response)
    (h : (Imgur.upload_media media_filename uploadRes).snd = .ok uploadRes) :
    (Imgur.upload_media media_filename uploadRes).fst
      = [Request.post (Imgur.api_url ++ "/3/image") [("client_id", Imgur.client_id)]
          (Body.formData
            [FormField.file "video" (guess_type media_filename) media_filename,
             FormField.value "type" "file",
             FormField.value "name" media_filename])] := by
  by_cases hc : endsWithStr media_filename ".mp4"
  · simp [Imgur.upload_media, hc]
  · simp [Imgur.upload_media, hc] at h

theorem imgur_media_field_named_video_witness :
    (Imgur.upload_media "clip.mp4" ⟨true, [], "", []⟩).fst
      = [Request.post (Imgur.api_url ++ "/3/image") [("client_id", Imgur.client_id)]
          (Body.formData
            [FormField.file "video" (guess_type "clip.mp4") "clip.mp4",
             FormField.value "type" "file",
             FormField.value "name" "clip.mp4"])] :=
  imgur_media_field_named_video "clip.mp4" ⟨true, [], "", []⟩ rfl

def Streamable.api_url : String := "https://ajax.streamable.com"

def Streamable.base_url : String := "https://streamable.com"

def Streamable.frontend_react_version : String :=
  "03db98af3545197e67cb96893d9e9d8729eee743"

def Streamja.base_url : String := "https://streamja.com"

def Streamwo.base_url : String := "https://streamwo.com"

def Streamff.base_url : String := "https://streamff.com"

/-- Embedding of Streamable.generate_upload_shortcode: the request it issues. -/
def Streamable.generate_upload_shortcode (video_sz : Nat) : Request :=
  Request.get (Streamable.api_url ++ "/shortcode")
    [("version", Streamable.frontend_react_version), ("size", toString video_sz)]

/-- Embedding of Streamable.update_video_metadata: the request it issues; the
title sent is the supplied one, or the filename stem when none is supplied. -/
def Streamable.update_video_metadata (video_shortcode video_filename : String)
    (video_size : Nat) (video_title : Option String) : Request :=
  Request.put (Streamable.api_url ++ "/videos/" ++ video_shortcode) [("purge", "")]
    (Body.jsonObj
      [("original_name", .str video_filename),
       ("original_size", .num (video_size : Int)),
       ("title", .str (match video_title with
                       | some t => t
                       | none => pathStem video_filename)),
       ("upload_source", .str "web")])

/-- Embedding of Streamable.start_transcode_upload: the request it issues.
The shortcode and token are the raw JSON values upload_video extracted from
the slot-allocation response; only the URL interpolation stringifies them. -/
def Streamable.start_transcode_upload (video_shortcode : JsonVal) (video_size : Nat)
    (transcoder_token : JsonVal) : Request :=
  Request.post (Streamable.api_url ++ "/transcode/" ++ pyStr video_shortcode) []
    (Body.jsonObj
      [("shortcode", video_shortcode),
       ("size", .num (video_size : Int)),
       ("token", transcoder_token),
       ("upload_source", .str "web"),
       ("url", .str ("https://streamables-upload.s3.amazonaws.com/upload/"
          ++ pyStr video_shortcode))])

/-- Sequential extraction of the five values Streamable.upload_video reads
from the slot-allocation response body, in source order, the first failing
subscript raising. -/
def slotFields (j : List (String × JsonVal)) :
    Except PyErr (JsonVal × JsonVal × JsonVal × JsonVal × JsonVal) :=
  match jIndex (.obj j) "shortcode" with
  | .error e => .error e
  | .ok sc =>
  match jIndex (.obj j) "credentials" with
  | .error e => .error e
  | .ok creds =>
  match jIndex creds "accessKeyId" with
  | .error e => .error e
  | .ok ak =>
  match jIndex creds "secretAccessKey" with
  | .error e => .error e
  | .ok sk =>
  match jIndex creds "sessionToken" with
  | .error e => .error e
  | .ok st =>
  match jIndex (.obj j) "transcoder_options" with
  | .error e => .error e
  | .ok topts =>
  match jIndex topts "token" with
  | .error e => .error e
  | .ok tt => .ok (sc, ak, sk, st, tt)

/-- Embedding of Streamable.upload_video: the four-step object-storage chain,
given the responses the three HTTP steps would receive. -/
def Streamable.upload_video (video_filename : String) (video_title : Option String)
    (video_sz : Nat) (slotRes metaRes transcodeRes : Response) :
    List Request × Except PyErr Response :=
  let reqSlot := Streamable.generate_upload_shortcode video_sz
  if slotRes.ok then
    match slotFields slotRes.json with
    | .error e => ([reqSlot], .error e)
    | .ok (sc, ak, sk, st, tt) =>
      let reqMeta :=
        Streamable.update_video_metadata (pyStr sc) video_filename video_sz video_title
      if metaRes.ok then
        let reqS3 :=
          Request.s3upload ak sk st "streamables-upload" ("upload/" ++ pyStr sc)
        let reqTrans := Streamable.start_transcode_upload sc video_sz tt
        ([reqSlot, reqMeta, reqS3, reqTrans], .ok transcodeRes)
      else ([reqSlot, reqMeta], .ok metaRes)
  else ([reqSlot], .ok slotRes)

/-- Position of a request within the object-storage upload chain: slot
allocation, metadata update, storage transfer, transcode start. -/
def uploadStepIndex : Request → Nat
  | .get _ _ => 0
  | .put _ _ _ => 1
  | .s3upload _ _ _ _ _ => 2
  | .post _ _ _ => 3

/-- Value of a named field of a request's JSON body, when it has one. -/
def Request.bodyField : Request → String → Option JsonVal
  | .post _ _ (Body.jsonObj fields), k => jLookup fields k
  | .put _ _ (Body.jsonObj fields), k => jLookup fields k
  | _, _ => none

/-- C9: the metadata request sends the supplied title unchanged, and defaults
to the filename without its extension when no title is supplied. -/
theorem metadata_title_defaults_to_stem (sc fn : String) (sz : Nat) :
    ((Streamable.update_video_metadata sc fn sz none).bodyField "title"
        = some (.str (pathStem fn)))
    ∧ ∀ t : String,
        (Streamable.update_video_metadata sc fn sz (some t)).bodyField "title"
          = some (.str t) := by
  constructor
  · rfl
  · intro t; rfl

/-- C2: the object-storage upload chain returns a failed slot allocation with
no further request, returns a failed metadata update with no storage transfer
and no transcode request, and always issues its requests in the fixed step
order slot allocation, metadata, transfer, transcode. -/
theorem upload_video_chain_order (video_filename : String) (video_title : Option String)
    (video_sz : Nat) (slotRes metaRes transcodeRes : Response) :
    (slotRes.ok = false →
      Streamable.upload_video video_filename video_title video_sz slotRes metaRes transcodeRes
        = ([Streamable.generate_upload_shortcode video_sz], .ok slotRes))
    ∧ (∀ sc ak sk st tt, slotRes.ok = true → metaRes.ok = false →
        slotFields slotRes.json = .ok (sc, ak, sk, st, tt) →
        Streamable.upload_video video_filename video_title video_sz slotRes metaRes transcodeRes
          = ([Streamable.generate_upload_shortcode video_sz,
              Streamable.update_video_metadata (pyStr sc) video_filename video_sz video_title],
             .ok metaRes))
    ∧ ((Streamable.upload_video video_filename video_title video_sz slotRes metaRes
          transcodeRes).fst.map uploadStepIndex = [0]
        ∨ (Streamable.upload_video video_filename video_title video_sz slotRes metaRes
            transcodeRes).fst.map uploadStepIndex = [0, 1]
        ∨ (Streamable.upload_video video_filename video_title video_sz slotRes metaRes
            transcodeRes).fst.map uploadStepIndex = [0, 1, 2, 3]) := by
  refine ⟨?_, ?_, ?_⟩
  · intro h
    simp [Streamable.upload_video, h]
  · intro sc ak sk st tt hok hmeta hsf
    simp [Streamable.upload_video, hok, hmeta, hsf]
  · by_cases hok : slotRes.ok
    · cases hsf : slotFields slotRes.json with
      | error e =>
        left
        simp [Streamable.upload_video, hok, hsf, Streamable.generate_upload_shortcode,
          uploadStepIndex]
      | ok tup =>
        obtain ⟨sc, ak, sk, st, tt⟩ := tup
        by_cases hmeta : metaRes.ok
        · right; right
          simp [Streamable.upload_video, hok, hsf, hmeta,
            Streamable.generate_upload_shortcode, Streamable.update_video_metadata,
            Streamable.start_transcode_upload, uploadStepIndex]
        · right; left
          simp [Streamable.upload_video, hok, hsf, hmeta,
            Streamable.generate_upload_shortcode, Streamable.update_video_metadata,
            uploadStepIndex]
    · left
      simp [Streamable.upload_video, hok, Streamable.generate_upload_shortcode,
        uploadStepIndex]

theorem upload_video_chain_order_witness :
    (Streamable.upload_video "clip.mp4" none 9 ⟨false, [], "", []⟩ ⟨true, [], "", []⟩
        ⟨true, [], "", []⟩
      = ([Streamable.generate_upload_shortcode 9], .ok ⟨false, [], "", []⟩))
    ∧ (Streamable.upload_video "clip.mp4" none 9
        ⟨true,
          [("shortcode", .str "sc1"),
           ("credentials",
             .obj [("accessKeyId", .str "ak"), ("secretAccessKey", .str "sk"),
                   ("sessionToken", .str "st")]),
           ("transcoder_options", .obj [("token", .str "tt")])], "", []⟩
        ⟨false, [], "", []⟩ ⟨true, [], "", []⟩
      = ([Streamable.generate_upload_shortcode 9,
          Streamable.update_video_metadata "sc1" "clip.mp4" 9 none],
         .ok ⟨false, [], "", []⟩)) :=
  ⟨(upload_video_chain_order "clip.mp4" none 9 ⟨false, [], "", []⟩ ⟨true, [], "", []⟩
      ⟨true, [], "", []⟩).1 rfl,
   (upload_video_chain_order "clip.mp4" none 9
      ⟨true,
        [("shortcode", .str "sc1"),
         ("credentials",
           .obj [("accessKeyId", .str "ak"), ("secretAccessKey", .str "sk"),
                 ("sessionToken", .str "st")]),
         ("transcoder_options", .obj [("token", .str "tt")])], "", []⟩
      ⟨false, [], "", []⟩ ⟨true, [], "", []⟩).2.1
     (JsonVal.str "sc1") (JsonVal.str "ak") (JsonVal.str "sk") (JsonVal.str "st")
     (JsonVal.str "tt") rfl rfl rfl⟩

/-- Embedding of Streamable.generate_streamable_clip_shortcode: the request
it issues. -/
def Streamable.generate_streamable_clip_shortcode (video_id : String)
    (mirror_title : Option String) : Request :=
  Request.post (Streamable.api_url ++ "/videos") []
    (Body.jsonObj
      [("extract_id", .str video_id),
       ("extractor", .str "streamable"),
       ("source", .str (Streamable.base_url ++ "/" ++ video_id)),
       ("status", .num 1),
       ("title", jsonOfOptStr mirror_title),
       ("upload_source", .str "clip")])

/-- Embedding of Streamable.generate_streamja_clip_shortcode: the request it
issues. -/
def Streamable.generate_streamja_clip_shortcode (video_id : String)
    (mirror_title : Option String) : Request :=
  Request.post (Streamable.api_url ++ "/videos") []
    (Body.jsonObj
      [("extract_id", .str video_id),
       ("extractor", .str "generic"),
       ("source", .str (Streamja.base_url ++ "/" ++ video_id)),
       ("status", .num 1),
       ("title", jsonOfOptStr mirror_title),
       ("upload_source", .str "clip")])

/-- Embedding of Streamable.generate_streamwo_clip_shortcode: the request it
issues. -/
def Streamable.generate_streamwo_clip_shortcode (video_id : String)
    (mirror_title : Option String) : Request :=
  Request.post (Streamable.api_url ++ "/videos") []
    (Body.jsonObj
      [("extract_id", .str video_id),
       ("extractor", .str "generic"),
       ("source", .str (Streamwo.base_url ++ "/" ++ video_id)),
       ("status", .num 1),
       ("title", jsonOfOptStr mirror_title),
       ("upload_source", .str "clip")])

/-- Embedding of Streamable.clip_video, given the responses of the extract,
shortcode-generation and transcode steps. The respJsonData binding follows
Python short-circuit evaluation: the walrus assignment in the second
condition runs only when the shortcode-generation response is not ok, so on
an ok generation response the variable still holds the extract body. -/
def Streamable.clip_video (video_id : String) (mirror_title : Option String)
    (extractRes genRes transRes : Response) :
    List Request × Except PyErr Response :=
  let reqExtract := Request.get (Streamable.api_url ++ "/extract")
      [("url", Streamable.base_url ++ "/" ++ video_id)]
  if extractRes.ok && noError extractRes.json then
    match jIndex (.obj extractRes.json) "url" with
    | .error e => ([reqExtract], .error e)
    | .ok vidUrl =>
    match jIndex (.obj extractRes.json) "headers" with
    | .error e => ([reqExtract], .error e)
    | .ok vidHeaders =>
      let reqGen := Streamable.generate_streamable_clip_shortcode video_id mirror_title
      let respJsonData := if genRes.ok then extractRes.json else genRes.json
      if genRes.ok || noError genRes.json then
        match jIndex (.obj respJsonData) "shortcode" with
        | .error e => ([reqExtract, reqGen], .error e)
        | .ok scV =>
          ([reqExtract, reqGen,
            Request.post (Streamable.api_url ++ "/transcode/" ++ pyStr scV) []
              (Body.jsonObj
                [("extractor", .str "streamable"),
                 ("headers", vidHeaders),
                 ("mute", .bool false),
                 ("shortcode", scV),
                 ("thumb_offset", .null),
                 ("title", .str (titleOrEmpty mirror_title)),
                 ("upload_source", .str "clip"),
                 ("url", vidUrl)])],
           .ok transRes)
      else ([reqExtract, reqGen], .ok genRes)
  else ([reqExtract], .ok extractRes)

/-- Embedding of Streamable.clip_streamja_video. Once past the generation
condition, the source reads `res.json()["shortcode"]` without awaiting the
coroutine, so subscripting it raises TypeError before the transcode request
can be issued. -/
def Streamable.clip_streamja_video (video_id : String) (mirror_title : Option String)
    (extractRes genRes transRes : Response) :
    List Request × Except PyErr Response :=
  let reqExtract := Request.get (Streamable.api_url ++ "/extract")
      [("url", Streamja.base_url ++ "/" ++ video_id)]
  if extractRes.ok && noError extractRes.json then
    match jIndex (.obj extractRes.json) "url" with
    | .error e => ([reqExtract], .error e)
    | .ok _ =>
    match jIndex (.obj extractRes.json) "headers" with
    | .error e => ([reqExtract], .error e)
    | .ok _ =>
      let reqGen := Streamable.generate_streamja_clip_shortcode video_id mirror_title
      if genRes.ok || noError genRes.json then
        ([reqExtract, reqGen], .error .typeError)
      else ([reqExtract, reqGen], .ok genRes)
  else ([reqExtract], .ok extractRes)

/-- Embedding of Streamable.clip_streamwo_video, structured exactly as
clip_video but with the generic extractor and the streamwo source URL. -/
def Streamable.clip_streamwo_video (video_id : String) (mirror_title : Option String)
    (extractRes genRes transRes : Response) :
    List Request × Except PyErr Response :=
  let reqExtract := Request.get (Streamable.api_url ++ "/extract")
      [("url", Streamwo.base_url ++ "/" ++ video_id)]
  if extractRes.ok && noError extractRes.json then
    match jIndex (.obj extractRes.json) "url" with
    | .error e => ([reqExtract], .error e)
    | .ok vidUrl =>
    match jIndex (.obj extractRes.json) "headers" with
    | .error e => ([reqExtract], .error e)
    | .ok vidHeaders =>
      let reqGen := Streamable.generate_streamwo_clip_shortcode video_id mirror_title
      let respJsonData := if genRes.ok then extractRes.json else genRes.json
      if genRes.ok || noError genRes.json then
        match jIndex (.obj respJsonData) "shortcode" with
        | .error e => ([reqExtract, reqGen], .error e)
        | .ok scV =>
          ([reqExtract, reqGen,
            Request.post (Streamable.api_url ++ "/transcode/" ++ pyStr scV) []
              (Body.jsonObj
                [("extractor", .str "generic"),
                 ("headers", vidHeaders),
                 ("mute", .bool false),
                 ("shortcode", scV),
                 ("thumb_offset", .null),
                 ("title", .str (titleOrEmpty mirror_title)),
                 ("upload_source", .str "clip"),
                 ("url", vidUrl)])],
           .ok transRes)
      else ([reqExtract, reqGen], .ok genRes)
  else ([reqExtract], .ok extractRes)

/-- Embedding of Streamable.clip_streamff_video. The preliminary metadata
lookup is awaited, but the videoLink read in the next statement subscripts
the un-awaited coroutine `res.json()`, so every run that passes the lookup
check raises TypeError before the extract request is issued; the rest of the
method body is unreachable. -/
def Streamable.clip_streamff_video (video_id : String) (lookupRes : Response) :
    List Request × Except PyErr Response :=
  let reqLookup := Request.get (Streamff.base_url ++ "/api/videos/" ++ video_id) []
  if !lookupRes.ok then ([reqLookup], .ok lookupRes)
  else ([reqLookup], .error .typeError)

/-- Embedding of Streamja.get_video: fetch the clip page, fail fast on a
non-ok fetch, else request the src of the first source tag of the page. -/
def Streamja.get_video (video_id : String) (pageRes mediaRes : Response) :
    List Request × Except PyErr Response :=
  let reqPage := Request.get (Streamja.base_url ++ "/" ++ video_id) []
  if !pageRes.ok then ([reqPage], .ok pageRes)
  else
    match (pageRes.html.filter (fun t => t.name == "source")).head? with
    | none => ([reqPage], .error .indexError)
    | some tag =>
      match attrLookup tag.attrs "src" with
      | none => ([reqPage], .error (.keyError "src"))
      | some src => ([reqPage, Request.get src []], .ok mediaRes)

/-- Embedding of Streamwo.get_video, identical to the Streamja variant apart
from the host. -/
def Streamwo.get_video (video_id : String) (pageRes mediaRes : Response) :
    List Request × Except PyErr Response :=
  let reqPage := Request.get (Streamwo.base_url ++ "/" ++ video_id) []
  if !pageRes.ok then ([reqPage], .ok pageRes)
  else
    match (pageRes.html.filter (fun t => t.name == "source")).head? with
    | none => ([reqPage], .error .indexError)
    | some tag =>
      match attrLookup tag.attrs "src" with
      | none => ([reqPage], .error (.keyError "src"))
      | some src => ([reqPage, Request.get src []], .ok mediaRes)

/-- Embedding of Streamable.get_video: fail fast on a non-ok page fetch, else
request the content of the first og meta tag of the page. -/
def Streamable.get_video (video_id : String) (pageRes mediaRes : Response) :
    List Request × Except PyErr Response :=
  let reqPage := Request.get (Streamable.base_url ++ "/" ++ video_id) []
  if !pageRes.ok then ([reqPage], .ok pageRes)
  else
    match (pageRes.html.filter (fun t =>
        t.name == "meta"
          && attrLookup t.attrs "property" == some "og:video:secure_url")).head? with
    | none => ([reqPage], .error .indexError)
    | some tag =>
      match attrLookup tag.attrs "content" with
      | none => ([reqPage], .error (.keyError "content"))
      | some contentUrl => ([reqPage, Request.get contentUrl []], .ok mediaRes)

/-- Embedding of Streamff.get_video: fail fast on a non-ok metadata fetch,
else request the videoLink the metadata body carries. -/
def Streamff.get_video (video_id : String) (lookupRes mediaRes : Response) :
    List Request × Except PyErr Response :=
  let reqLookup := Request.get (Streamff.base_url ++ "/api/videos/" ++ video_id) []
  if !lookupRes.ok then ([reqLookup], .ok lookupRes)
  else
    match jIndex (.obj lookupRes.json) "videoLink" with
    | .error e => ([reqLookup], .error e)
    | .ok v => ([reqLookup, Request.get (Streamff.base_url ++ pyStr v) []], .ok mediaRes)

/-- Embedding of Streamff.upload_video: raise unless link generation is ok,
else post the multipart form to the upload endpoint keyed by the generated
link text. -/
def Streamff.upload_video (video_filename : String) (genRes uploadRes : Response) :
    List Request × Except PyErr Response :=
  let reqGen := Request.post (Streamff.base_url ++ "/api/videos/generate-link") []
      Body.empty
  if !genRes.ok then ([reqGen], .error (.valueError "Unexpected response!"))
  else
    ([reqGen,
      Request.post (Streamff.base_url ++ "/api/videos/upload/" ++ genRes.text) []
        (Body.formData [FormField.file "file" (guess_type video_filename) video_filename])],
     .ok uploadRes)

/-- Whether a request is a clip-shortcode registration, a post against the
videos collection endpoint. -/
def isClipShortcodeRequest : Request → Bool
  | .post url _ _ => url == Streamable.api_url ++ "/videos"
  | _ => false

/-- C1 fails on the code: after a successful extract, a NON-success
shortcode-generation response whose JSON body carries no error field still
passes the boolean-or condition, so clip_video issues a third, transcode
request and returns that request's response instead of halting with the
failed generation response. -/
theorem clip_video_proceeds_past_failed_generation :
    ((Streamable.clip_video "abc" (some "")
        ⟨true, [("url", .str "https://cdn/a.mp4"), ("headers", .obj [])], "", []⟩
        ⟨false, [("shortcode", .str "g1")], "", []⟩
        ⟨true, [], "", []⟩).fst.length = 3)
    ∧ ((Streamable.clip_video "abc" (some "")
        ⟨true, [("url", .str "https://cdn/a.mp4"), ("headers", .obj [])], "", []⟩
        ⟨false, [("shortcode", .str "g1")], "", []⟩
        ⟨true, [], "", []⟩).snd = .ok ⟨true, [], "", []⟩) := by
  constructor
  · rfl
  · rfl

/-- C4: when the extract response reports a non-null error field, each clip
chain that reaches its extract step returns the extract response and issues
no clip-shortcode request; clip_streamff_video raises before its extract
step, so it never issues a clip-shortcode request at all. -/
theorem clip_extract_error_stops_chain (video_id : String) (mirror_title : Option String)
    (extractRes genRes transRes : Response) (v : JsonVal)
    (he : jLookup extractRes.json "error" = some v) (hv : v.isNull = false) :
    Streamable.clip_video video_id mirror_title extractRes genRes transRes
        = ([Request.get (Streamable.api_url ++ "/extract")
              [("url", Streamable.base_url ++ "/" ++ video_id)]], .ok extractRes)
    ∧ Streamable.clip_streamja_video video_id mirror_title extractRes genRes transRes
        = ([Request.get (Streamable.api_url ++ "/extract")
              [("url", Streamja.base_url ++ "/" ++ video_id)]], .ok extractRes)
    ∧ Streamable.clip_streamwo_video video_id mirror_title extractRes genRes transRes
        = ([Request.get (Streamable.api_url ++ "/extract")
              [("url", Streamwo.base_url ++ "/" ++ video_id)]], .ok extractRes)
    ∧ ∀ lookupRes : Response,
        ∀ r ∈ (Streamable.clip_streamff_video video_id lookupRes).fst,
          isClipShortcodeRequest r = false := by
  have hne : noError extractRes.json = false := by simp [noError, he, hv]
  refine ⟨?_, ?_, ?_, ?_⟩
  · simp [Streamable.clip_video, hne]
  · simp [Streamable.clip_streamja_video, hne]
  · simp [Streamable.clip_streamwo_video, hne]
  · intro lookupRes r hr
    by_cases hok : lookupRes.ok
    · simp [Streamable.clip_streamff_video, hok] at hr
      simp [hr, isClipShortcodeRequest]
    · simp [Streamable.clip_streamff_video, hok] at hr
      simp [hr, isClipShortcodeRequest]

theorem clip_extract_error_stops_chain_witness :
    Streamable.clip_video "abc" none
        ⟨true, [("error", .str "not found")], "", []⟩
        ⟨true, [], "", []⟩ ⟨true, [], "", []⟩
      = ([Request.get (Streamable.api_url ++ "/extract")
            [("url", Streamable.base_url ++ "/" ++ "abc")]],
         .ok ⟨true, [("error", .str "not found")], "", []⟩) :=
  (clip_extract_error_stops_chain "abc" none
      ⟨true, [("error", .str "not found")], "", []⟩
      ⟨true, [], "", []⟩ ⟨true, [], "", []⟩ (.str "not found") rfl rfl).1

/-- C5: every clip-site get_video returns a failed page fetch unchanged,
issuing no second request and doing no HTML parsing. -/
theorem get_video_page_failure_short_circuits (video_id : String)
    (pageRes mediaRes : Response) (h : pageRes.ok = false) :
    Streamja.get_video video_id pageRes mediaRes
        = ([Request.get (Streamja.base_url ++ "/" ++ video_id) []], .ok pageRes)
    ∧ Streamwo.get_video video_id pageRes mediaRes
        = ([Request.get (Streamwo.base_url ++ "/" ++ video_id) []], .ok pageRes)
    ∧ Streamable.get_video video_id pageRes mediaRes
        = ([Request.get (Streamable.base_url ++ "/" ++ video_id) []], .ok pageRes)
    ∧ Streamff.get_video video_id pageRes mediaRes
        = ([Request.get (Streamff.base_url ++ "/api/videos/" ++ video_id) []],
           .ok pageRes) := by
  refine ⟨?_, ?_, ?_, ?_⟩ <;>
    simp [Streamja.get_video, Streamwo.get_video, Streamable.get_video,
      Streamff.get_video, h]

theorem get_video_page_failure_short_circuits_witness :
    Streamja.get_video "abc123"
        ⟨false, [], "", [⟨"source", [("src", "https://cdn/abc123.mp4")]⟩]⟩
        ⟨true, [], "", []⟩
      = ([Request.get (Streamja.base_url ++ "/" ++ "abc123") []],
         .ok ⟨false, [], "", [⟨"source", [("src", "https://cdn/abc123.mp4")]⟩]⟩) :=
  (get_video_page_failure_short_circuits "abc123"
      ⟨false, [], "", [⟨"source", [("src", "https://cdn/abc123.mp4")]⟩]⟩
      ⟨true, [], "", []⟩ rfl).1

/-- C6: after a successful page fetch whose first source tag carries a src
attribute, Streamja.get_video and Streamwo.get_video issue exactly one second
request, whose URL is exactly that src attribute. -/
theorem get_video_requests_first_source_src (video_id : String)
    (pageRes mediaRes : Response) (tag : Tag) (src : String)
    (hok : pageRes.ok = true)
    (htag : (pageRes.html.filter (fun t => t.name == "source")).head? = some tag)
    (hsrc : attrLookup tag.attrs "src" = some src) :
    Streamja.get_video video_id pageRes mediaRes
        = ([Request.get (Streamja.base_url ++ "/" ++ video_id) [],
            Request.get src []], .ok mediaRes)
    ∧ Streamwo.get_video video_id pageRes mediaRes
        = ([Request.get (Streamwo.base_url ++ "/" ++ video_id) [],
            Request.get src []], .ok mediaRes) := by
  constructor <;> simp [Streamja.get_video, Streamwo.get_video, hok, htag, hsrc]

theorem get_video_requests_first_source_src_witness :
    Streamja.get_video "abc123"
        ⟨true, [], "",
          [⟨"video", []⟩,
           ⟨"source", [("src", "https://cdn/abc123.mp4")]⟩,
           ⟨"source", [("src", "https://cdn/other.mp4")]⟩]⟩
        ⟨true, [], "", []⟩
      = ([Request.get (Streamja.base_url ++ "/" ++ "abc123") [],
          Request.get "https://cdn/abc123.mp4" []], .ok ⟨true, [], "", []⟩) :=
  (get_video_requests_first_source_src "abc123"
      ⟨true, [], "",
        [⟨"video", []⟩,
         ⟨"source", [("src", "https://cdn/abc123.mp4")]⟩,
         ⟨"source", [("src", "https://cdn/other.mp4")]⟩]⟩
      ⟨true, [], "", []⟩
      ⟨"source", [("src", "https://cdn/abc123.mp4")]⟩
      "https://cdn/abc123.mp4" rfl rfl rfl).1

/-- C7: when extraction succeeds without error and the shortcode-generation
response is ok, the boolean-or condition short-circuits without running the
walrus re-binding, so the shortcode of the final transcode request is read
from the extract response's JSON, whatever the generation response body
holds; clip_streamff_video only ever issues its preliminary lookup request,
so its analogous transcode step is unreachable. -/
theorem clip_shortcode_read_from_extract_json (video_id : String)
    (mirror_title : Option String) (extractRes genRes transRes : Response)
    (u hv scV : JsonVal)
    (hok : extractRes.ok = true) (herr : noError extractRes.json = true)
    (hu : jLookup extractRes.json "url" = some u)
    (hh : jLookup extractRes.json "headers" = some hv)
    (hsc : jLookup extractRes.json "shortcode" = some scV)
    (hgen : genRes.ok = true) :
    Streamable.clip_video video_id mirror_title extractRes genRes transRes
        = ([Request.get (Streamable.api_url ++ "/extract")
              [("url", Streamable.base_url ++ "/" ++ video_id)],
            Streamable.generate_streamable_clip_shortcode video_id mirror_title,
            Request.post (Streamable.api_url ++ "/transcode/" ++ pyStr scV) []
              (Body.jsonObj
                [("extractor", .str "streamable"),
                 ("headers", hv),
                 ("mute", .bool false),
                 ("shortcode", scV),
                 ("thumb_offset", .null),
                 ("title", .str (titleOrEmpty mirror_title)),
                 ("upload_source", .str "clip"),
                 ("url", u)])],
           .ok transRes)
    ∧ Streamable.clip_streamwo_video video_id mirror_title extractRes genRes transRes
        = ([Request.get (Streamable.api_url ++ "/extract")
              [("url", Streamwo.base_url ++ "/" ++ video_id)],
            Streamable.generate_streamwo_clip_shortcode video_id mirror_title,
            Request.post (Streamable.api_url ++ "/transcode/" ++ pyStr scV) []
              (Body.jsonObj
                [("extractor", .str "generic"),
                 ("headers", hv),
                 ("mute", .bool false),
                 ("shortcode", scV),
                 ("thumb_offset", .null),
                 ("title", .str (titleOrEmpty mirror_title)),
                 ("upload_source", .str "clip"),
                 ("url", u)])],
           .ok transRes)
    ∧ ∀ lookupRes : Response,
        (Streamable.clip_streamff_video video_id lookupRes).fst
          = [Request.get (Streamff.base_url ++ "/api/videos/" ++ video_id) []] := by
  refine ⟨?_, ?_, ?_⟩
  · simp [Streamable.clip_video, jIndex, hok, herr, hu, hh, hsc, hgen]
  · simp [Streamable.clip_streamwo_video, jIndex, hok, herr, hu, hh, hsc, hgen]
  · intro lookupRes
    by_cases hlk : lookupRes.ok <;> simp [Streamable.clip_streamff_video, hlk]

theorem clip_shortcode_read_from_extract_json_witness :
    Streamable.clip_video "abc" none
        ⟨true,
          [("url", .str "https://cdn/a.mp4"), ("headers", .obj []),
           ("shortcode", .str "fromExtract")], "", []⟩
        ⟨true, [("shortcode", .str "fromGeneration")], "", []⟩
        ⟨true, [], "", []⟩
      = ([Request.get (Streamable.api_url ++ "/extract")
            [("url", Streamable.base_url ++ "/" ++ "abc")],
          Streamable.generate_streamable_clip_shortcode "abc" none,
          Request.post (Streamable.api_url ++ "/transcode/" ++ "fromExtract") []
            (Body.jsonObj
              [("extractor", .str "streamable"),
               ("headers", .obj []),
               ("mute", .bool false),
               ("shortcode", .str "fromExtract"),
               ("thumb_offset", .null),
               ("title", .str ""),
               ("upload_source", .str "clip"),
               ("url", .str "https://cdn/a.mp4")])],
         .ok ⟨true, [], "", []⟩) :=
  (clip_shortcode_read_from_extract_json "abc" none
      ⟨true,
        [("url", .str "https://cdn/a.mp4"), ("headers", .obj []),
         ("shortcode", .str "fromExtract")], "", []⟩
      ⟨true, [("shortcode", .str "fromGeneration")], "", []⟩
      ⟨true, [], "", []⟩
      (.str "https://cdn/a.mp4") (.obj []) (.str "fromExtract")
      rfl rfl rfl rfl rfl rfl).1

/-- C8: Streamff.upload_video raises ValueError "Unexpected response!"
exactly when the preliminary generate-link request is not ok; when it is ok,
no error is raised and the multipart upload is posted to the upload endpoint
keyed by the generated link text. -/
theorem streamff_upload_error_iff_genlink_fails (video_filename : String)
    (genRes uploadRes : Response) :
    ((Streamff.upload_video video_filename genRes uploadRes).snd
        = .error (.valueError "Unexpected response!") ↔ genRes.ok = false)
    ∧ (genRes.ok = true →
        Streamff.upload_video video_filename genRes uploadRes
          = ([Request.post (Streamff.base_url ++ "/api/videos/generate-link") []
                Body.empty,
              Request.post
                (Streamff.base_url ++ "/api/videos/upload/" ++ genRes.text) []
                (Body.formData
                  [FormField.file "file" (guess_type video_filename)
                    video_filename])],
             .ok uploadRes)) := by
  by_cases h : genRes.ok <;> simp [Streamff.upload_video, h]

theorem streamff_upload_error_iff_genlink_fails_witness :
    ((Streamff.upload_video "clip.mp4" ⟨false, [], "", []⟩ ⟨true, [], "", []⟩).snd
        = .error (.valueError "Unexpected response!"))
    ∧ (Streamff.upload_video "clip.mp4" ⟨true, [], "link1", []⟩ ⟨true, [], "", []⟩
        = ([Request.post (Streamff.base_url ++ "/api/videos/generate-link") []
              Body.empty,
            Request.post (Streamff.base_url ++ "/api/videos/upload/" ++ "link1") []
              (Body.formData
                [FormField.file "file" (guess_type "clip.mp4") "clip.mp4"])],
           .ok ⟨true, [], "", []⟩)) :=
  ⟨(streamff_upload_error_iff_genlink_fails "clip.mp4" ⟨false, [], "", []⟩
      ⟨true, [], "", []⟩).1.mpr rfl,
   (streamff_upload_error_iff_genlink_fails "clip.mp4" ⟨true, [], "link1", []⟩
      ⟨true, [], "", []⟩).2 rfl⟩
